import Mathlib

/-!
Shallow embedding of the two API client wrappers of the repository
"TestRail-vs-TestLink-A-Performance-and-Cost-Analysis":

* `TestRailClient` (src/testrail_api_example.py) — a REST/JSON client with a
  single-result call, a batch call and two read calls;
* `TestLinkAPIClient` and `TestLinkAPIWrapper` (src/testlink_api_example.py)
  — an XML-RPC client with a single-result call, a manual fan-out helper,
  two read calls, and a friendly status-name wrapper.

JSON-like values are modelled by `Value`; Python dicts become ordered
association lists (Python preserves insertion order, and the spec compares
bodies for exact equality).  The injected transports (the `requests` library
and the `xmlrpc.client.ServerProxy`) are external collaborators: they are
modelled as function arguments, and each operation returns the list of
transport calls it issued together with its Python-level outcome
(`Except PyError _`).
-/

/-- A JSON-like value: the payloads both clients build. -/
inductive Value where
  | str (s : String)
  | int (n : Int)
  | bool (b : Bool)
  | arr (elems : List Value)
  | obj (fields : List (String × Value))
deriving Repr

/-- Python-level errors raised by the embedded code paths:
`requests.Response.raise_for_status` raises an HTTP error carrying the
status; the RPC transport raises `xmlrpc.client.Fault` carrying a numeric
`faultCode` and a `faultString`; `raise Exception(msg)` raises a generic
exception carrying only its message string. -/
inductive PyError where
  | httpError (status : Nat)
  | xmlrpcFault (faultCode : Int) (faultString : String)
  | exception (msg : String)
deriving Repr, DecidableEq

/-- The numeric payload an error carries as a structured field, if any:
a generic `Exception` carries only a message string, no structured code. -/
def PyError.structCode : PyError → Option Int
  | .httpError status => some (Int.ofNat status)
  | .xmlrpcFault faultCode _ => some faultCode
  | .exception _ => none

/-- An HTTP request as issued through the `requests` library: method, full
URL, Basic-Auth credential pair, headers and optional JSON body. -/
structure HttpRequest where
  method : String
  url : String
  auth : String × String
  headers : List (String × String)
  body : Option Value
deriving Repr

/-- The transport's answer to an HTTP request: a status code and the decoded
JSON document. -/
structure HttpResponse where
  status : Nat
  json : Value
deriving Repr

/-- Success statuses per the spec's transport interface (2xx). -/
def HttpResponse.isSuccess (r : HttpResponse) : Bool :=
  200 ≤ r.status && r.status < 300

/-- The injected HTTP transport (external collaborator). -/
def HttpTransport := HttpRequest → HttpResponse

/-- `raise_for_status` followed by `.json()`: a non-success status raises an
HTTP error, otherwise the decoded body is returned. -/
def httpOutcome (r : HttpResponse) : Except PyError Value :=
  if r.isSuccess then .ok r.json else .error (.httpError r.status)

/-- Python `str.lower()`, modelled character-wise (the status names the
wrapper is used with are plain ASCII, where the two agree). -/
def strLower (s : String) : String :=
  ⟨s.data.map Char.toLower⟩

/-- Python `str.rstrip(c)` for `c = '/'`: remove every trailing slash. -/
def rstripSlash (s : String) : String :=
  ⟨(s.data.reverse.dropWhile (· == '/')).reverse⟩

/-- `TestRailClient` fields, exactly the ones `__init__` assigns. -/
structure TestRailClient where
  base_url : String
  auth : String × String
  headers : List (String × String)
deriving Repr, DecidableEq

/-- `TestRailClient.__init__`: strips trailing slashes from the base URL,
stores the Basic-Auth pair and the constant JSON content-type header. -/
def TestRailClient.make (base_url email api_key : String) : TestRailClient :=
  { base_url := rstripSlash base_url
    auth := (email, api_key)
    headers := [("Content-Type", "application/json")] }

/-- `TestRailClient.add_result`: builds the `{status_id, comment, elapsed}`
payload, POSTs it to `{base_url}/index.php?/api/v2/add_result/{test_id}`,
raises on non-success, otherwise returns the decoded response.  The first
component is the list of transport calls issued. -/
def TestRailClient.add_result (c : TestRailClient) (transport : HttpTransport)
    (test_id status_id : Int) (comment elapsed : String) :
    List HttpRequest × Except PyError Value :=
  let endpoint := c.base_url ++ "/index.php?/api/v2/add_result/" ++ toString test_id
  let payload := Value.obj
    [("status_id", .int status_id), ("comment", .str comment), ("elapsed", .str elapsed)]
  let req : HttpRequest :=
    { method := "POST", url := endpoint, auth := c.auth, headers := c.headers
      body := some payload }
  ([req], httpOutcome (transport req))

/-- `TestRailClient.add_results_batch`: wraps the caller's result dicts in a
single `{results: [...]}` payload and POSTs it once to
`{base_url}/index.php?/api/v2/add_results/{run_id}`. -/
def TestRailClient.add_results_batch (c : TestRailClient) (transport : HttpTransport)
    (run_id : Int) (results : List Value) :
    List HttpRequest × Except PyError Value :=
  let endpoint := c.base_url ++ "/index.php?/api/v2/add_results/" ++ toString run_id
  let payload := Value.obj [("results", .arr results)]
  let req : HttpRequest :=
    { method := "POST", url := endpoint, auth := c.auth, headers := c.headers
      body := some payload }
  ([req], httpOutcome (transport req))

/-- `TestRailClient.get_test`: bodyless GET to `get_test/{test_id}`. -/
def TestRailClient.get_test (c : TestRailClient) (transport : HttpTransport)
    (test_id : Int) : List HttpRequest × Except PyError Value :=
  let endpoint := c.base_url ++ "/index.php?/api/v2/get_test/" ++ toString test_id
  let req : HttpRequest :=
    { method := "GET", url := endpoint, auth := c.auth, headers := c.headers, body := none }
  ([req], httpOutcome (transport req))

/-- `TestRailClient.get_run`: bodyless GET to `get_run/{run_id}`. -/
def TestRailClient.get_run (c : TestRailClient) (transport : HttpTransport)
    (run_id : Int) : List HttpRequest × Except PyError Value :=
  let endpoint := c.base_url ++ "/index.php?/api/v2/get_run/" ++ toString run_id
  let req : HttpRequest :=
    { method := "GET", url := endpoint, auth := c.auth, headers := c.headers, body := none }
  ([req], httpOutcome (transport req))

/-- A remote-procedure call as issued through the `ServerProxy`: the dotted
method name and its single struct parameter. -/
structure RpcCall where
  method : String
  param : Value
deriving Repr

/-- The RPC transport's answer: a decoded result, or an `xmlrpc.client.Fault`
carrying a numeric code and a message. -/
inductive RpcOutcome where
  | ok (v : Value)
  | fault (faultCode : Int) (faultString : String)
deriving Repr

/-- Whether an RPC transport outcome is a non-fault result. -/
def RpcOutcome.isOk : RpcOutcome → Bool
  | .ok _ => true
  | .fault _ _ => false

/-- The value of a non-fault outcome (dummy on a fault). -/
def RpcOutcome.val : RpcOutcome → Value
  | .ok v => v
  | .fault _ _ => .str ""

/-- The injected RPC transport (external collaborator). -/
def RpcTransport := RpcCall → RpcOutcome

/-- `TestLinkAPIClient` fields: the endpoint URL held by the `ServerProxy`
and the developer key, exactly the ones `__init__` assigns. -/
structure TestLinkAPIClient where
  url : String
  dev_key : String
deriving Repr, DecidableEq

/-- The message of the generic exception `report_result`, `get_test_case`
and `get_test_plan` raise when the transport raises a fault:
the f-string `XML-RPC Fault: {faultCode} - {faultString}`. -/
def faultMessage (faultCode : Int) (faultString : String) : String :=
  "XML-RPC Fault: " ++ toString faultCode ++ " - " ++ faultString

/-- Shared `try/except` shape of the three RPC operations: an
`xmlrpc.client.Fault` is caught and re-raised as a generic `Exception`
whose message embeds the fault's code and string. -/
def rpcOutcomeToResult : RpcOutcome → Except PyError Value
  | .ok v => .ok v
  | .fault faultCode faultString => .error (.exception (faultMessage faultCode faultString))

/-- The single call `TestLinkAPIClient.report_result` issues: method
`tl.reportTCResult` with the verbose data dict, keys in source order. -/
def reportCall (c : TestLinkAPIClient) (testcase_id testplan_id build_id : Int)
    (status notes : String) : RpcCall :=
  { method := "tl.reportTCResult"
    param := Value.obj
      [("devKey", .str c.dev_key), ("testcaseid", .int testcase_id),
       ("testplanid", .int testplan_id), ("status", .str status),
       ("buildid", .int build_id), ("notes", .str notes),
       ("overwrite", .bool true)] }

/-- `TestLinkAPIClient.report_result`: builds the data dict, invokes
`tl.reportTCResult` once, converts a transport fault into a generic
exception, otherwise returns the response unmodified. -/
def TestLinkAPIClient.report_result (c : TestLinkAPIClient) (transport : RpcTransport)
    (testcase_id testplan_id build_id : Int) (status notes : String) :
    List RpcCall × Except PyError Value :=
  let call := reportCall c testcase_id testplan_id build_id status notes
  ([call], rpcOutcomeToResult (transport call))

/-- One entry of the `results` list fed to `report_multiple_results`:
the loop reads `result["testcase_id"]`, `result["status"]` and
`result.get("notes", "")`. -/
structure RpcResultRecord where
  testcase_id : Int
  status : String
  notes : Option String
deriving Repr

/-- The `report_result` call issued for one loop iteration. -/
def recordCall (c : TestLinkAPIClient) (testplan_id build_id : Int)
    (r : RpcResultRecord) : RpcCall :=
  reportCall c r.testcase_id testplan_id build_id r.status (r.notes.getD "")

/-- `TestLinkAPIClient.report_multiple_results`: no batch primitive exists,
so the loop issues one `report_result` per record in order, appending each
response; an exception from any iteration propagates and discards the
accumulated responses. -/
def TestLinkAPIClient.report_multiple_results (c : TestLinkAPIClient)
    (transport : RpcTransport) (testplan_id build_id : Int)
    (results : List RpcResultRecord) :
    List RpcCall × Except PyError (List Value) :=
  match results with
  | [] => ([], .ok [])
  | r :: rest =>
    let first := c.report_result transport r.testcase_id testplan_id build_id
      r.status (r.notes.getD "")
    match first.2 with
    | .error e => (first.1, .error e)
    | .ok v =>
      let later := c.report_multiple_results transport testplan_id build_id rest
      (first.1 ++ later.1, later.2.map (v :: ·))

/-- `TestLinkAPIClient.get_test_case`: invokes `tl.getTestCase` once with
`{devKey, testcaseid}`, converting a fault to a generic exception. -/
def TestLinkAPIClient.get_test_case (c : TestLinkAPIClient) (transport : RpcTransport)
    (testcase_id : Int) : List RpcCall × Except PyError Value :=
  let call : RpcCall :=
    { method := "tl.getTestCase"
      param := Value.obj [("devKey", .str c.dev_key), ("testcaseid", .int testcase_id)] }
  ([call], rpcOutcomeToResult (transport call))

/-- `TestLinkAPIClient.get_test_plan`: invokes `tl.getTestPlanByID` once
with `{devKey, testplanid}`, converting a fault to a generic exception. -/
def TestLinkAPIClient.get_test_plan (c : TestLinkAPIClient) (transport : RpcTransport)
    (testplan_id : Int) : List RpcCall × Except PyError Value :=
  let call : RpcCall :=
    { method := "tl.getTestPlanByID"
      param := Value.obj [("devKey", .str c.dev_key), ("testplanid", .int testplan_id)] }
  ([call], rpcOutcomeToResult (transport call))

/-- The literal status-name dict `TestLinkAPIWrapper.__init__` assigns. -/
def statusMapInit : List (String × String) :=
  [("passed", "p"), ("failed", "f"), ("blocked", "b")]

/-- `TestLinkAPIWrapper` fields: the wrapped client and the status dict. -/
structure TestLinkAPIWrapper where
  client : TestLinkAPIClient
  status_map : List (String × String)
deriving Repr, DecidableEq

/-- `TestLinkAPIWrapper.__init__`. -/
def TestLinkAPIWrapper.make (url dev_key : String) : TestLinkAPIWrapper :=
  { client := { url := url, dev_key := dev_key }, status_map := statusMapInit }

/-- The status translation line of `report_result_friendly`:
`self.status_map.get(status.lower(), 'p')` — dict lookup on the lowercased
name, defaulting to `p` on a miss. -/
def TestLinkAPIWrapper.friendly_status_code (w : TestLinkAPIWrapper)
    (status : String) : String :=
  (w.status_map.lookup (strLower status)).getD "p"

/-- `TestLinkAPIWrapper.report_result_friendly`: translates the readable
status name and delegates to the wrapped client's `report_result`. -/
def TestLinkAPIWrapper.report_result_friendly (w : TestLinkAPIWrapper)
    (transport : RpcTransport) (testcase_id testplan_id build_id : Int)
    (status notes : String) : List RpcCall × Except PyError Value :=
  w.client.report_result transport testcase_id testplan_id build_id
    (w.friendly_status_code status) notes

/-- The five logical statuses of the spec's ResultRecord. -/
inductive Status where
  | passed
  | failed
  | blocked
  | untested
  | retest
deriving Repr, DecidableEq

/-- The REST status encoding documented on `TestRailClient.add_result`
(line "status_id: 1=Passed, 2=Blocked, 3=Untested, 4=Retest, 5=Failed"). -/
def statusToRestCode : Status → Int
  | .passed => 1
  | .blocked => 2
  | .untested => 3
  | .retest => 4
  | .failed => 5

/-- The lower-case name of a status, as the RPC-side status dict is keyed. -/
def statusName : Status → String
  | .passed => "passed"
  | .failed => "failed"
  | .blocked => "blocked"
  | .untested => "untested"
  | .retest => "retest"

/-- The RPC status encoding: a lookup in the only status table the RPC code
defines, the wrapper's `status_map` dict; statuses absent from the dict
have no single-character code. -/
def statusToRpcCode (s : Status) : Option String :=
  statusMapInit.lookup (statusName s)

example : statusToRpcCode .passed = some "p" := by decide
example : statusToRpcCode .untested = none := by decide
example : statusToRestCode .retest = 4 := by decide

/-! State-passing forms of the eight operations.  No method body of either
class assigns to a field of `self` (only the constructors do), so the
faithful state-passing translation returns the input record as the
post-state, whether the call succeeds or fails. -/

/-- State-passing `add_result`: the method assigns no field of `self`. -/
def TestRailClient.add_result_state (c : TestRailClient) (transport : HttpTransport)
    (test_id status_id : Int) (comment elapsed : String) :
    (List HttpRequest × Except PyError Value) × TestRailClient :=
  (c.add_result transport test_id status_id comment elapsed, c)

/-- State-passing `add_results_batch`: the method assigns no field of `self`. -/
def TestRailClient.add_results_batch_state (c : TestRailClient) (transport : HttpTransport)
    (run_id : Int) (results : List Value) :
    (List HttpRequest × Except PyError Value) × TestRailClient :=
  (c.add_results_batch transport run_id results, c)

/-- State-passing `get_test`: the method assigns no field of `self`. -/
def TestRailClient.get_test_state (c : TestRailClient) (transport : HttpTransport)
    (test_id : Int) : (List HttpRequest × Except PyError Value) × TestRailClient :=
  (c.get_test transport test_id, c)

/-- State-passing `get_run`: the method assigns no field of `self`. -/
def TestRailClient.get_run_state (c : TestRailClient) (transport : HttpTransport)
    (run_id : Int) : (List HttpRequest × Except PyError Value) × TestRailClient :=
  (c.get_run transport run_id, c)

/-- State-passing `report_result`: the method assigns no field of `self`. -/
def TestLinkAPIClient.report_result_state (c : TestLinkAPIClient) (transport : RpcTransport)
    (testcase_id testplan_id build_id : Int) (status notes : String) :
    (List RpcCall × Except PyError Value) × TestLinkAPIClient :=
  (c.report_result transport testcase_id testplan_id build_id status notes, c)

/-- State-passing `report_multiple_results`: the loop assigns no field of `self`. -/
def TestLinkAPIClient.report_multiple_results_state (c : TestLinkAPIClient)
    (transport : RpcTransport) (testplan_id build_id : Int)
    (results : List RpcResultRecord) :
    (List RpcCall × Except PyError (List Value)) × TestLinkAPIClient :=
  (c.report_multiple_results transport testplan_id build_id results, c)

/-- State-passing `get_test_case`: the method assigns no field of `self`. -/
def TestLinkAPIClient.get_test_case_state (c : TestLinkAPIClient) (transport : RpcTransport)
    (testcase_id : Int) : (List RpcCall × Except PyError Value) × TestLinkAPIClient :=
  (c.get_test_case transport testcase_id, c)

/-- State-passing `get_test_plan`: the method assigns no field of `self`. -/
def TestLinkAPIClient.get_test_plan_state (c : TestLinkAPIClient) (transport : RpcTransport)
    (testplan_id : Int) : (List RpcCall × Except PyError Value) × TestLinkAPIClient :=
  (c.get_test_plan transport testplan_id, c)

/-- Dropping leading slashes is unaffected by a slash prefix. -/
lemma dropWhile_slash_replicate_append (k : Nat) (l : List Char) :
    (List.replicate k '/' ++ l).dropWhile (· == '/') = l.dropWhile (· == '/') := by
  induction k with
  | zero => rfl
  | succ n ih => simp [List.replicate_succ, List.dropWhile_cons, ih]

/-- `rstripSlash` absorbs any appended run of trailing slashes. -/
lemma rstripSlash_append_replicate (s : String) (k : Nat) :
    rstripSlash (s ++ ⟨List.replicate k '/'⟩) = rstripSlash s := by
  unfold rstripSlash
  rw [String.data_append]
  simp [List.reverse_append, dropWhile_slash_replicate_append]

/-- C1 counterexample: the only status table in the RPC code, the wrapper's
`status_map` dict, defines no single-character code for Untested or Retest,
so the status-to-code mapping is not total in the RPC protocol. -/
theorem statusToRpcCode_untested_none :
    statusToRpcCode .untested = none ∧ statusToRpcCode .retest = none := by
  decide

/-- C1 (amended): the REST status encoding is total on the five statuses and
returns exactly the fixed codes Passed→1, Failed→5, Blocked→2, Untested→3,
Retest→4 with no other possible output; the RPC encoding is defined exactly
for Passed→"p", Failed→"f", Blocked→"b", with those three single-character
codes as its only possible outputs and no code for Untested or Retest. -/
theorem status_code_mapping (s : Status) :
    statusToRestCode .passed = 1 ∧ statusToRestCode .failed = 5 ∧
    statusToRestCode .blocked = 2 ∧ statusToRestCode .untested = 3 ∧
    statusToRestCode .retest = 4 ∧
    statusToRpcCode .passed = some "p" ∧ statusToRpcCode .failed = some "f" ∧
    statusToRpcCode .blocked = some "b" ∧
    statusToRestCode s ∈ ([1, 2, 3, 4, 5] : List Int) ∧
    statusToRpcCode s ∈ ([some "p", some "f", some "b", none] : List (Option String)) := by
  cases s <;> decide

/-- C2: for every run identifier and every list of records,
`add_results_batch` issues exactly one transport call, a POST whose body is
the object `{results: [...]}` holding the input records verbatim — so the
results field has length equal to the number of input records and lists
them in input order. -/
theorem add_results_batch_single_call (c : TestRailClient) (transport : HttpTransport)
    (run_id : Int) (results : List Value) :
    (c.add_results_batch transport run_id results).1 =
      [{ method := "POST"
         url := c.base_url ++ "/index.php?/api/v2/add_results/" ++ toString run_id
         auth := c.auth
         headers := c.headers
         body := some (Value.obj [("results", Value.arr results)]) }] ∧
    (c.add_results_batch transport run_id results).1.length = 1 := by
  exact ⟨rfl, rfl⟩

/-- C8: every operation of both clients is stateless: in the state-passing
translation (no method body assigns a field of `self`), the client record
after any call — successful or failed, whatever the transport does — equals
the record built at construction. -/
theorem clients_stateless (c : TestRailClient) (d : TestLinkAPIClient)
    (ht : HttpTransport) (rt : RpcTransport)
    (test_id run_id status_id : Int) (comment elapsed : String)
    (results : List Value) (testcase_id testplan_id build_id : Int)
    (status notes : String) (records : List RpcResultRecord) :
    (c.add_result_state ht test_id status_id comment elapsed).2 = c ∧
    (c.add_results_batch_state ht run_id results).2 = c ∧
    (c.get_test_state ht test_id).2 = c ∧
    (c.get_run_state ht run_id).2 = c ∧
    (d.report_result_state rt testcase_id testplan_id build_id status notes).2 = d ∧
    (d.report_multiple_results_state rt testplan_id build_id records).2 = d ∧
    (d.get_test_case_state rt testcase_id).2 = d ∧
    (d.get_test_plan_state rt testplan_id).2 = d := by
  exact ⟨rfl, rfl, rfl, rfl, rfl, rfl, rfl, rfl⟩

/-- C10: the constructor strips all trailing slash characters from the base
URL, so a client built from a base with any run of trailing slashes appended
equals the client built from the base itself, and consequently every
operation builds identical endpoint URLs (identical requests and results). -/
theorem base_url_trailing_slash_invariant (base email api_key : String) (k : Nat)
    (transport : HttpTransport) (test_id run_id status_id : Int)
    (comment elapsed : String) (results : List Value) :
    TestRailClient.make (base ++ ⟨List.replicate k '/'⟩) email api_key =
      TestRailClient.make base email api_key ∧
    (TestRailClient.make (base ++ ⟨List.replicate k '/'⟩) email api_key).add_result
        transport test_id status_id comment elapsed =
      (TestRailClient.make base email api_key).add_result
        transport test_id status_id comment elapsed ∧
    (TestRailClient.make (base ++ ⟨List.replicate k '/'⟩) email api_key).add_results_batch
        transport run_id results =
      (TestRailClient.make base email api_key).add_results_batch
        transport run_id results ∧
    (TestRailClient.make (base ++ ⟨List.replicate k '/'⟩) email api_key).get_test
        transport test_id =
      (TestRailClient.make base email api_key).get_test transport test_id ∧
    (TestRailClient.make (base ++ ⟨List.replicate k '/'⟩) email api_key).get_run
        transport run_id =
      (TestRailClient.make base email api_key).get_run transport run_id := by
  have h : TestRailClient.make (base ++ ⟨List.replicate k '/'⟩) email api_key =
      TestRailClient.make base email api_key := by
    unfold TestRailClient.make
    rw [rstripSlash_append_replicate]
  exact ⟨h, by rw [h], by rw [h], by rw [h], by rw [h]⟩

/-- Unfolding equation for `report_result` in terms of `reportCall`. -/
lemma report_result_def (c : TestLinkAPIClient) (transport : RpcTransport)
    (testcase_id testplan_id build_id : Int) (status notes : String) :
    c.report_result transport testcase_id testplan_id build_id status notes =
      ([reportCall c testcase_id testplan_id build_id status notes],
       rpcOutcomeToResult (transport (reportCall c testcase_id testplan_id build_id status notes))) :=
  rfl

/-- When every per-record transport call succeeds, the fan-out issues one
call per record in input order and returns the responses in order. -/
lemma report_multiple_results_ok (c : TestLinkAPIClient) (transport : RpcTransport)
    (testplan_id build_id : Int) (results : List RpcResultRecord)
    (h : ∀ r ∈ results, (transport (recordCall c testplan_id build_id r)).isOk = true) :
    c.report_multiple_results transport testplan_id build_id results =
      (results.map (recordCall c testplan_id build_id),
       .ok (results.map fun r => (transport (recordCall c testplan_id build_id r)).val)) := by
  induction results with
  | nil => rfl
  | cons r rest ih =>
    have hr := h r (by simp)
    have hrest : ∀ x ∈ rest, (transport (recordCall c testplan_id build_id x)).isOk = true :=
      fun x hx => h x (by simp [hx])
    cases htr : transport (recordCall c testplan_id build_id r) with
    | fault code msg => simp [htr, RpcOutcome.isOk] at hr
    | ok v =>
      have htr2 : transport (reportCall c r.testcase_id testplan_id build_id r.status
          (r.notes.getD "")) = .ok v := htr
      simp [TestLinkAPIClient.report_multiple_results, report_result_def, htr2,
        rpcOutcomeToResult, ih hrest, recordCall, htr, RpcOutcome.val, Except.map]

/-- When the calls before some record succeed and that record's call faults,
the fan-out issues exactly the calls up to and including the faulting one
and propagates the exception `report_result` raised there. -/
lemma report_multiple_results_fault (c : TestLinkAPIClient) (transport : RpcTransport)
    (testplan_id build_id : Int) (pre : List RpcResultRecord) (r : RpcResultRecord)
    (post : List RpcResultRecord) (faultCode : Int) (faultString : String)
    (hpre : ∀ p ∈ pre, (transport (recordCall c testplan_id build_id p)).isOk = true)
    (hr : transport (recordCall c testplan_id build_id r) = .fault faultCode faultString) :
    c.report_multiple_results transport testplan_id build_id (pre ++ r :: post) =
      ((pre ++ [r]).map (recordCall c testplan_id build_id),
       .error (.exception (faultMessage faultCode faultString))) := by
  induction pre with
  | nil =>
    have hr2 : transport (reportCall c r.testcase_id testplan_id build_id r.status
        (r.notes.getD "")) = .fault faultCode faultString := hr
    simp [TestLinkAPIClient.report_multiple_results, report_result_def, hr2,
      rpcOutcomeToResult, recordCall]
  | cons p pre' ih =>
    have hp := hpre p (by simp)
    have hpre' : ∀ x ∈ pre', (transport (recordCall c testplan_id build_id x)).isOk = true :=
      fun x hx => hpre x (by simp [hx])
    cases htp : transport (recordCall c testplan_id build_id p) with
    | fault code msg => simp [htp, RpcOutcome.isOk] at hp
    | ok v =>
      have htp2 : transport (reportCall c p.testcase_id testplan_id build_id p.status
          (p.notes.getD "")) = .ok v := htp
      simp [TestLinkAPIClient.report_multiple_results, report_result_def, htp2,
        rpcOutcomeToResult, ih hpre', recordCall, Except.map]

/-- C3: `report_multiple_results` issues exactly one single-result transport
call per record, in input order; when every call succeeds it returns one
response per record in the same order; and when the call at some position
faults while all earlier calls succeed, exactly the calls up to and
including the faulting one are issued — the later calls never happen — the
exception raised by `report_result` there propagates unchanged, and no
partial response list is returned (the outcome is that error, not a list). -/
theorem report_multiple_results_sequential (c : TestLinkAPIClient)
    (transport : RpcTransport) (testplan_id build_id : Int)
    (results : List RpcResultRecord) :
    ((∀ r ∈ results, (transport (recordCall c testplan_id build_id r)).isOk = true) →
      c.report_multiple_results transport testplan_id build_id results =
        (results.map (recordCall c testplan_id build_id),
         .ok (results.map fun r => (transport (recordCall c testplan_id build_id r)).val))) ∧
    (∀ pre r post faultCode faultString, results = pre ++ r :: post →
      (∀ p ∈ pre, (transport (recordCall c testplan_id build_id p)).isOk = true) →
      transport (recordCall c testplan_id build_id r) = .fault faultCode faultString →
      c.report_multiple_results transport testplan_id build_id results =
        ((pre ++ [r]).map (recordCall c testplan_id build_id),
         .error (.exception (faultMessage faultCode faultString)))) := by
  constructor
  · exact report_multiple_results_ok c transport testplan_id build_id results
  · intro pre r post faultCode faultString heq hpre hr
    subst heq
    exact report_multiple_results_fault c transport testplan_id build_id pre r post
      faultCode faultString hpre hr

/-- A demonstration RPC transport: faults with code 300 on test case 2,
succeeds with a fixed response otherwise. -/
def demoTransport : RpcTransport := fun call =>
  match call.param with
  | .obj (_ :: ("testcaseid", .int 2) :: _) => .fault 300 "boom"
  | _ => .ok (.str "done")

/-- C3 witness: with three records where the transport faults on the second,
the fan-out issues exactly the first two calls and propagates the error. -/
theorem report_multiple_results_sequential_witness :
    (TestLinkAPIClient.mk "http://example.com/xmlrpc.php" "K").report_multiple_results
        demoTransport 10 5 [⟨1, "p", none⟩, ⟨2, "f", some "x"⟩, ⟨3, "p", none⟩] =
      (([⟨1, "p", none⟩, ⟨2, "f", some "x"⟩] : List RpcResultRecord).map
        (recordCall (TestLinkAPIClient.mk "http://example.com/xmlrpc.php" "K") 10 5),
       .error (.exception (faultMessage 300 "boom"))) := by
  exact (report_multiple_results_sequential
      (TestLinkAPIClient.mk "http://example.com/xmlrpc.php" "K") demoTransport 10 5
      [⟨1, "p", none⟩, ⟨2, "f", some "x"⟩, ⟨3, "p", none⟩]).2
    [⟨1, "p", none⟩] ⟨2, "f", some "x"⟩ [⟨3, "p", none⟩] 300 "boom" rfl
    (by decide) (by rfl)

/-- A fixed successful RPC transport. -/
def okTransport : RpcTransport := fun _ => .ok (.str "done")

/-- A fixed faulting RPC transport (code 2000). -/
def faultTransport : RpcTransport := fun _ => .fault 2000 "Invalid dev key"

/-- C4: `report_result` constructs exactly the parameter structure
{devKey, testcaseid, testplanid, status, buildid, notes, overwrite=true}
in that key order, invokes the single remote method `tl.reportTCResult`
once with it, and returns a successful transport response unmodified. -/
theorem report_result_builds_exact_params (c : TestLinkAPIClient)
    (transport : RpcTransport) (testcase_id testplan_id build_id : Int)
    (status notes : String) :
    (c.report_result transport testcase_id testplan_id build_id status notes).1 =
      [{ method := "tl.reportTCResult"
         param := Value.obj
           [("devKey", .str c.dev_key), ("testcaseid", .int testcase_id),
            ("testplanid", .int testplan_id), ("status", .str status),
            ("buildid", .int build_id), ("notes", .str notes),
            ("overwrite", .bool true)] }] ∧
    (∀ v, transport (reportCall c testcase_id testplan_id build_id status notes) = .ok v →
      (c.report_result transport testcase_id testplan_id build_id status notes).2 = .ok v) := by
  refine ⟨rfl, fun v hv => ?_⟩
  show rpcOutcomeToResult
    (transport (reportCall c testcase_id testplan_id build_id status notes)) = .ok v
  rw [hv]
  rfl

/-- C4 witness: at targetId 1, plan 10, build 5, status "p", note "ok" and
dev key "K", the single call carries exactly the structure of the claim and
the transport response is returned unmodified. -/
theorem report_result_builds_exact_params_witness :
    (TestLinkAPIClient.mk "http://example.com/xmlrpc.php" "K").report_result
        okTransport 1 10 5 "p" "ok" =
      ([{ method := "tl.reportTCResult"
          param := Value.obj
            [("devKey", .str "K"), ("testcaseid", .int 1), ("testplanid", .int 10),
             ("status", .str "p"), ("buildid", .int 5), ("notes", .str "ok"),
             ("overwrite", .bool true)] }],
       .ok (.str "done")) := by
  have h := report_result_builds_exact_params
    (TestLinkAPIClient.mk "http://example.com/xmlrpc.php" "K") okTransport 1 10 5 "p" "ok"
  exact Prod.ext_iff.mpr ⟨h.1, h.2 (.str "done") rfl⟩

/-- The single request C5 and the spec describe: a POST carrying
{status_id, comment, elapsed} to the `add_result/{test_id}` endpoint under
the client's stored auth pair and headers. -/
def addResultRequest (c : TestRailClient) (test_id status_id : Int)
    (comment elapsed : String) : HttpRequest :=
  { method := "POST"
    url := c.base_url ++ "/index.php?/api/v2/add_result/" ++ toString test_id
    auth := c.auth
    headers := c.headers
    body := some (Value.obj
      [("status_id", .int status_id), ("comment", .str comment),
       ("elapsed", .str elapsed)]) }

/-- C5: `add_result` issues exactly one POST, the request above; a success
status returns the decoded response, a non-success status raises the
transport error carrying that status. -/
theorem add_result_spec (c : TestRailClient) (transport : HttpTransport)
    (test_id status_id : Int) (comment elapsed : String) :
    (c.add_result transport test_id status_id comment elapsed).1 =
      [addResultRequest c test_id status_id comment elapsed] ∧
    ((transport (addResultRequest c test_id status_id comment elapsed)).isSuccess = true →
      (c.add_result transport test_id status_id comment elapsed).2 =
        .ok (transport (addResultRequest c test_id status_id comment elapsed)).json) ∧
    ((transport (addResultRequest c test_id status_id comment elapsed)).isSuccess = false →
      (c.add_result transport test_id status_id comment elapsed).2 =
        .error (.httpError
          (transport (addResultRequest c test_id status_id comment elapsed)).status)) := by
  have hdef : (c.add_result transport test_id status_id comment elapsed).2 =
      httpOutcome (transport (addResultRequest c test_id status_id comment elapsed)) := rfl
  refine ⟨rfl, fun hs => ?_, fun hf => ?_⟩
  · rw [hdef]; simp [httpOutcome, hs]
  · rw [hdef]; simp [httpOutcome, hf]

/-- A REST transport answering 200 with a fixed decoded document. -/
def http200 : HttpTransport := fun _ => { status := 200, json := .str "created" }

/-- C5 witness: at targetId 1, status code 1, comment "ok", elapsed "1m 30s"
the single POST carries exactly the body the claim states, and the decoded
response comes back. -/
theorem add_result_spec_witness :
    ((TestRailClient.make "https://example.testrail.io" "u" "k").add_result http200
        1 1 "ok" "1m 30s").1 =
      [{ method := "POST"
         url := "https://example.testrail.io/index.php?/api/v2/add_result/1"
         auth := ("u", "k")
         headers := [("Content-Type", "application/json")]
         body := some (Value.obj
           [("status_id", .int 1), ("comment", .str "ok"),
            ("elapsed", .str "1m 30s")]) }] ∧
    ((TestRailClient.make "https://example.testrail.io" "u" "k").add_result http200
        1 1 "ok" "1m 30s").2 = .ok (.str "created") := by
  have h := add_result_spec (TestRailClient.make "https://example.testrail.io" "u" "k")
    http200 1 1 "ok" "1m 30s"
  exact ⟨h.1.trans (by rfl), h.2.1 (by rfl)⟩

/-- C6 counterexample: a status with no mapping does not fail fast:
`report_result` forwards the unrecognized status code "zzz" to the
transport unchanged and returns the response — no encoding error exists. -/
theorem unmapped_status_not_failing :
    (TestLinkAPIClient.mk "http://example.com/xmlrpc.php" "K").report_result
        okTransport 1 10 5 "zzz" "" =
      ([{ method := "tl.reportTCResult"
          param := Value.obj
            [("devKey", .str "K"), ("testcaseid", .int 1), ("testplanid", .int 10),
             ("status", .str "zzz"), ("buildid", .int 5), ("notes", .str ""),
             ("overwrite", .bool true)] }],
       .ok (.str "done")) := rfl

/-- C6 (amended): the clients perform no status validation — `report_result`
forwards any status code to the transport unchanged, raising no encoding
error — while the friendly wrapper silently maps any unrecognized status
name to "p" ("bogus" → "p") and recognized names to their codes
("failed" → "f"), delegating with the mapped code. -/
theorem status_not_validated (c : TestLinkAPIClient) (transport : RpcTransport)
    (testcase_id testplan_id build_id : Int) (status notes url dev_key : String) :
    (c.report_result transport testcase_id testplan_id build_id status notes).1 =
      [{ method := "tl.reportTCResult"
         param := Value.obj
           [("devKey", .str c.dev_key), ("testcaseid", .int testcase_id),
            ("testplanid", .int testplan_id), ("status", .str status),
            ("buildid", .int build_id), ("notes", .str notes),
            ("overwrite", .bool true)] }] ∧
    (TestLinkAPIWrapper.make url dev_key).friendly_status_code "bogus" = "p" ∧
    (TestLinkAPIWrapper.make url dev_key).friendly_status_code "failed" = "f" ∧
    (TestLinkAPIWrapper.make url dev_key).report_result_friendly transport
        testcase_id testplan_id build_id "bogus" notes =
      (TestLinkAPIClient.mk url dev_key).report_result transport
        testcase_id testplan_id build_id "p" notes := by
  exact ⟨rfl, rfl, rfl, rfl⟩

/-- The single call `get_test_case` issues. -/
def getTestCaseCall (c : TestLinkAPIClient) (testcase_id : Int) : RpcCall :=
  { method := "tl.getTestCase"
    param := Value.obj [("devKey", .str c.dev_key), ("testcaseid", .int testcase_id)] }

/-- The single call `get_test_plan` issues. -/
def getTestPlanCall (c : TestLinkAPIClient) (testplan_id : Int) : RpcCall :=
  { method := "tl.getTestPlanByID"
    param := Value.obj [("devKey", .str c.dev_key), ("testplanid", .int testplan_id)] }

/-- Any error produced by the shared fault-conversion path is a generic
exception (never the raw fault type). -/
lemma rpcOutcomeToResult_error (o : RpcOutcome) (e : PyError)
    (h : rpcOutcomeToResult o = .error e) : ∃ m, e = PyError.exception m := by
  cases o with
  | ok v => simp [rpcOutcomeToResult] at h
  | fault fc fs =>
    simp only [rpcOutcomeToResult, Except.error.injEq] at h
    exact ⟨faultMessage fc fs, h.symm⟩

/-- C7 counterexample: at a concrete fault (code 2000), the error raised by
`report_result` is a generic exception whose message merely embeds the code
in formatted text; it carries no numeric code as a structured field. -/
theorem rpc_fault_not_structured :
    ((TestLinkAPIClient.mk "http://example.com/xmlrpc.php" "K").report_result
        faultTransport 1 10 5 "p" "").2 =
      .error (.exception "XML-RPC Fault: 2000 - Invalid dev key") ∧
    (PyError.exception "XML-RPC Fault: 2000 - Invalid dev key").structCode = none := by
  exact ⟨rfl, rfl⟩

/-- C7 (amended): whenever the RPC transport signals a fault, each of
`report_result`, `get_test_case` and `get_test_plan` raises a generic
exception whose message embeds the fault's numeric code and message as the
text "XML-RPC Fault: {code} - {message}"; the raw transport fault type is
never propagated — every error any of them returns is such a generic
exception, carrying the code only inside the message string. -/
theorem rpc_fault_wrapped (c : TestLinkAPIClient) (transport : RpcTransport)
    (testcase_id testplan_id build_id : Int) (status notes : String)
    (faultCode : Int) (faultString : String) :
    (transport (reportCall c testcase_id testplan_id build_id status notes) =
        .fault faultCode faultString →
      (c.report_result transport testcase_id testplan_id build_id status notes).2 =
        .error (.exception (faultMessage faultCode faultString))) ∧
    (transport (getTestCaseCall c testcase_id) = .fault faultCode faultString →
      (c.get_test_case transport testcase_id).2 =
        .error (.exception (faultMessage faultCode faultString))) ∧
    (transport (getTestPlanCall c testplan_id) = .fault faultCode faultString →
      (c.get_test_plan transport testplan_id).2 =
        .error (.exception (faultMessage faultCode faultString))) ∧
    (∀ e, (c.report_result transport testcase_id testplan_id build_id status notes).2 =
        .error e → ∃ m, e = PyError.exception m) ∧
    (∀ e, (c.get_test_case transport testcase_id).2 = .error e →
      ∃ m, e = PyError.exception m) ∧
    (∀ e, (c.get_test_plan transport testplan_id).2 = .error e →
      ∃ m, e = PyError.exception m) := by
  refine ⟨fun h => ?_, fun h => ?_, fun h => ?_,
    fun e he => rpcOutcomeToResult_error _ e he,
    fun e he => rpcOutcomeToResult_error _ e he,
    fun e he => rpcOutcomeToResult_error _ e he⟩
  · show rpcOutcomeToResult
      (transport (reportCall c testcase_id testplan_id build_id status notes)) = _
    rw [h]
    rfl
  · show rpcOutcomeToResult (transport (getTestCaseCall c testcase_id)) = _
    rw [h]
    rfl
  · show rpcOutcomeToResult (transport (getTestPlanCall c testplan_id)) = _
    rw [h]
    rfl

/-- C7 witness: with a transport that faults with code 2000, all three RPC
operations return the wrapped generic exception. -/
theorem rpc_fault_wrapped_witness :
    ((TestLinkAPIClient.mk "http://example.com/xmlrpc.php" "K").report_result
        faultTransport 1 10 5 "p" "ok").2 =
      .error (.exception (faultMessage 2000 "Invalid dev key")) ∧
    ((TestLinkAPIClient.mk "http://example.com/xmlrpc.php" "K").get_test_case
        faultTransport 1).2 =
      .error (.exception (faultMessage 2000 "Invalid dev key")) ∧
    ((TestLinkAPIClient.mk "http://example.com/xmlrpc.php" "K").get_test_plan
        faultTransport 10).2 =
      .error (.exception (faultMessage 2000 "Invalid dev key")) := by
  have h := rpc_fault_wrapped (TestLinkAPIClient.mk "http://example.com/xmlrpc.php" "K")
    faultTransport 1 10 5 "p" "ok" 2000 "Invalid dev key"
  exact ⟨h.1 rfl, h.2.1 rfl, h.2.2.1 rfl⟩

/-- C9: the friendly status lookup is case-insensitive: the argument is
lowercased before consulting the map, so any spelling whose lowercase form
is "passed", "failed" or "blocked" yields "p", "f" or "b" respectively, and
any two spellings with the same lowercase form yield the same code. -/
theorem friendly_status_case_insensitive (url dev_key : String) (s : String) :
    ((strLower s = "passed" →
        (TestLinkAPIWrapper.make url dev_key).friendly_status_code s = "p") ∧
     (strLower s = "failed" →
        (TestLinkAPIWrapper.make url dev_key).friendly_status_code s = "f") ∧
     (strLower s = "blocked" →
        (TestLinkAPIWrapper.make url dev_key).friendly_status_code s = "b")) ∧
    (∀ t, strLower s = strLower t →
      (TestLinkAPIWrapper.make url dev_key).friendly_status_code s =
        (TestLinkAPIWrapper.make url dev_key).friendly_status_code t) := by
  constructor
  · refine ⟨fun h => ?_, fun h => ?_, fun h => ?_⟩ <;>
      simp [TestLinkAPIWrapper.friendly_status_code, TestLinkAPIWrapper.make, h,
        statusMapInit, List.lookup]
  · intro t h
    simp [TestLinkAPIWrapper.friendly_status_code, TestLinkAPIWrapper.make, h]

/-- C9 witness: "PASSED" maps to "p" and "Failed" maps to "f". -/
theorem friendly_status_case_insensitive_witness :
    (TestLinkAPIWrapper.make "u" "K").friendly_status_code "PASSED" = "p" ∧
    (TestLinkAPIWrapper.make "u" "K").friendly_status_code "Failed" = "f" := by
  exact ⟨(friendly_status_case_insensitive "u" "K" "PASSED").1.1 (by rfl),
         (friendly_status_case_insensitive "u" "K" "Failed").1.2.1 (by rfl)⟩
